import Mathlib

/-!
Shallow embedding of the QuizCards (PDF Flashcards Generator) frontend client
logic: the React state held in `App.jsx` (`extractedText`, `summary`,
`flashcards`, `error`), the three react-query mutation handlers (`onSuccess` /
`onError` of the upload, summarize and flashcards mutations), and the control
logic of `FileUpload.jsx`, `SummarySection.jsx` and `FlashcardsSection.jsx`
(guards, disabled flags and the requests each handler dispatches).

State transitions are pure functions `AppState → AppState × List Request`,
where the `List Request` component records the HTTP requests a handler
dispatches via `mutation.mutate` (all of the `onSuccess`/`onError` handlers
dispatch none, which makes "no automatic retry" a provable statement).
-/

namespace QuizCards

/-- A flashcard as in the FlashcardSet response: `{question, answer}`. -/
structure Flashcard where
  question : String
  answer : String
deriving DecidableEq

/-- Response of POST /summarize: `{summary, original_length, summary_length}`. -/
structure Summary where
  summary : String
  original_length : Nat
  summary_length : Nat
deriving DecidableEq

/-- Response of POST /flashcards: `{flashcards, total_count}`. -/
structure FlashcardSet where
  flashcards : List Flashcard
  total_count : Nat
deriving DecidableEq

/-- Response of POST /upload: `{text}` (the extracted content). -/
structure UploadResponse where
  text : String
deriving DecidableEq

/-- A browser file as seen by the client handlers: its name and MIME type
(`file.name`, `file.type`). -/
structure File where
  name : String
  type : String
deriving DecidableEq

/-- The client state of `App.jsx`: `useState` hooks `extractedText` (initially
`''`), `summary`, `flashcards` and `error` (initially `null`). -/
structure AppState where
  extractedText : String
  summary : Option Summary
  flashcards : Option FlashcardSet
  error : Option String
deriving DecidableEq

/-- The initial client state: `useState('')` and three `useState(null)`. -/
def initialState : AppState :=
  { extractedText := "", summary := none, flashcards := none, error := none }

/-- An HTTP request the client can issue, one constructor per `apiService`
call: `uploadContent(file, text)`, `generateSummary(text)`,
`generateFlashcards(text, numCards)` (the latter is sent as
`POST /flashcards?num_cards=numCards`). -/
inductive Request where
  | upload (file : Option File) (text : Option String)
  | summarize (text : String)
  | flashcards (text : String) (numCards : Nat)
deriving DecidableEq

/-- JavaScript `a || b` on a possibly-absent string `a`: the fallback is used
when `a` is `undefined`/`null` (here `none`) or the empty string (falsy). -/
def jsOrString (a : Option String) (fallback : String) : String :=
  match a with
  | some s => if s = "" then fallback else s
  | none => fallback

/-- `uploadMutation.onSuccess` (App.jsx lines 18-23): `setExtractedText
(data.text); setSummary(null); setFlashcards(null); setError(null)`. It
dispatches no request. -/
def uploadOnSuccess (data : UploadResponse) (s : AppState) :
    AppState × List Request :=
  ({ s with extractedText := data.text, summary := none, flashcards := none,
            error := none }, [])

/-- `uploadMutation.onError` (App.jsx lines 24-27): `setError
(error.response?.data?.detail || 'Failed to process content')`. The function
takes the `detail` field of the error response body, absent as `none`. It
dispatches no request. -/
def uploadOnError (detail : Option String) (s : AppState) :
    AppState × List Request :=
  ({ s with error := some (jsOrString detail "Failed to process content") }, [])

/-- `summaryMutation.onSuccess` (App.jsx lines 35-38): `setSummary(data);
setError(null)`. -/
def summaryOnSuccess (data : Summary) (s : AppState) :
    AppState × List Request :=
  ({ s with summary := some data, error := none }, [])

/-- `summaryMutation.onError` (App.jsx lines 39-42): `setError
(error.response?.data?.detail || 'Failed to generate summary')`. -/
def summaryOnError (detail : Option String) (s : AppState) :
    AppState × List Request :=
  ({ s with error := some (jsOrString detail "Failed to generate summary") }, [])

/-- `flashcardsMutation.onSuccess` (App.jsx lines 50-53): `setFlashcards(data);
setError(null)`. -/
def flashcardsOnSuccess (data : FlashcardSet) (s : AppState) :
    AppState × List Request :=
  ({ s with flashcards := some data, error := none }, [])

/-- `flashcardsMutation.onError` (App.jsx lines 54-57): `setError
(error.response?.data?.detail || 'Failed to generate flashcards')`. -/
def flashcardsOnError (detail : Option String) (s : AppState) :
    AppState × List Request :=
  ({ s with error := some (jsOrString detail "Failed to generate flashcards") },
   [])

/-- `handleFileSelect` (App.jsx lines 61-63): `uploadMutation.mutate({file,
text: null})`. Returns the dispatched requests. -/
def handleFileSelect (file : File) : List Request :=
  [Request.upload (some file) none]

/-- `handleTextInput` (App.jsx lines 65-67): `uploadMutation.mutate({file:
null, text})`. -/
def handleTextInput (text : String) : List Request :=
  [Request.upload none (some text)]

/-- `handleGenerateSummary` (App.jsx lines 69-73): `if (extractedText)
summaryMutation.mutate(extractedText)`; the JavaScript truthiness test on a
string is "non-empty". -/
def handleGenerateSummary (s : AppState) : List Request :=
  if s.extractedText = "" then [] else [Request.summarize s.extractedText]

/-- `handleGenerateFlashcards` (App.jsx lines 75-79): `if (extractedText)
flashcardsMutation.mutate({text: extractedText, numCards})`. -/
def handleGenerateFlashcards (s : AppState) (numCards : Nat) : List Request :=
  if s.extractedText = "" then []
  else [Request.flashcards s.extractedText numCards]

/-- Result of a FileUpload.jsx file handler: the `selectedFile` state after the
call, the requests dispatched through `onFileSelect` (which is App's
`handleFileSelect`), and the `alert` message shown, if any. -/
structure FileSelectResult where
  selectedFile : Option File
  dispatched : List Request
  alerted : Option String
deriving DecidableEq

/-- `handleFileChange` (FileUpload.jsx lines 8-17): if a file is present and
`file.type === 'application/pdf'`, select it and call `onFileSelect(file)`;
else if a file is present, `alert('Please select a PDF file')` and clear the
input; with no file, do nothing. -/
def handleFileChange (prevSelected : Option File) (file : Option File) :
    FileSelectResult :=
  match file with
  | some f =>
    if f.type = "application/pdf" then
      { selectedFile := some f, dispatched := handleFileSelect f,
        alerted := none }
    else
      { selectedFile := prevSelected, dispatched := [],
        alerted := some "Please select a PDF file" }
  | none =>
    { selectedFile := prevSelected, dispatched := [], alerted := none }

/-- `handleDrop` (FileUpload.jsx lines 29-38): if a file is present and
`file.type === 'application/pdf'`, select it and call `onFileSelect(file)`;
otherwise `alert('Please drop a PDF file')`. Note the handler does not consult
`isLoading`. -/
def handleDrop (prevSelected : Option File) (file : Option File) :
    FileSelectResult :=
  match file with
  | some f =>
    if f.type = "application/pdf" then
      { selectedFile := some f, dispatched := handleFileSelect f,
        alerted := none }
    else
      { selectedFile := prevSelected, dispatched := [],
        alerted := some "Please drop a PDF file" }
  | none =>
    { selectedFile := prevSelected, dispatched := [],
      alerted := some "Please drop a PDF file" }

/-- JavaScript `String.prototype.trim` on the character list: drop whitespace
from both ends. -/
def trimChars (cs : List Char) : List Char :=
  ((cs.dropWhile Char.isWhitespace).reverse.dropWhile Char.isWhitespace).reverse

/-- `textInput.trim()` as used by FileUpload.jsx. -/
def jsTrim (s : String) : String :=
  String.mk (trimChars s.data)

/-- `handleTextSubmit` (FileUpload.jsx lines 19-23): `if (textInput.trim())
onTextInput(textInput)`; `onTextInput` is App's `handleTextInput`. Returns the
dispatched requests. -/
def handleTextSubmit (textInput : String) : List Request :=
  if jsTrim textInput = "" then [] else handleTextInput textInput

/-- The hidden file input `#file-input` (FileUpload.jsx lines 97-104) carries
`disabled={isLoading}`. -/
def fileInputDisabled (isLoading : Bool) : Bool := isLoading

/-- The drag-and-drop target div (FileUpload.jsx lines 71-96) carries no
`disabled` attribute and no `isLoading` guard: its `onDrop` fires regardless of
the upload mutation being in flight. -/
def dropZoneDisabled (_isLoading : Bool) : Bool := false

/-- The textarea of the text tab (FileUpload.jsx lines 111-117) carries
`disabled={isLoading}`. -/
def textAreaDisabled (isLoading : Bool) : Bool := isLoading

/-- The Submit Text button (FileUpload.jsx lines 122-126) carries
`disabled={!textInput.trim() || isLoading}`. -/
def textSubmitDisabled (textInput : String) (isLoading : Bool) : Bool :=
  (jsTrim textInput = "") || isLoading

/-- The Generate Summary button (SummarySection.jsx) carries
`disabled={isLoading}`. -/
def summaryButtonDisabled (isLoading : Bool) : Bool := isLoading

/-- The card-count select `#numCards` (FlashcardsSection.jsx lines 66-76)
carries `disabled={isLoading}`. -/
def numCardsSelectDisabled (isLoading : Bool) : Bool := isLoading

/-- The Generate Flashcards button (FlashcardsSection.jsx lines 78-82) carries
`disabled={isLoading}`. -/
def flashcardsButtonDisabled (isLoading : Bool) : Bool := isLoading

/-- `SummarySection` (SummarySection.jsx lines 4-6) returns `null` when
`extractedText` is falsy, i.e. renders only for non-empty text. -/
def summarySectionRenders (extractedText : String) : Bool :=
  if extractedText = "" then false else true

/-- `FlashcardsSection` (FlashcardsSection.jsx lines 49-51) returns `null` when
`extractedText` is falsy. -/
def flashcardsSectionRenders (extractedText : String) : Bool :=
  if extractedText = "" then false else true

/-- The option values of the card-count select (FlashcardsSection.jsx line 73):
`[3, 4, 5, 6, 7, 8, 9, 10].map(...)`. -/
def cardOptions : List Nat := [3, 4, 5, 6, 7, 8, 9, 10]

/-- The initial card count (FlashcardsSection.jsx line 47): `useState(5)`. -/
def initialNumCards : Nat := 5

/-- The values the `numCards` state of FlashcardsSection can hold: its initial
value, or a value picked from the select's options via
`setNumCards(parseInt(e.target.value))`. -/
inductive NumCardsReachable : Nat → Prop
  | init : NumCardsReachable initialNumCards
  | select (n : Nat) (h : n ∈ cardOptions) : NumCardsReachable n

/-- Modelled from the spec: the backend FastAPI flashcards handler is not under
src/ (src/ holds only the frontend sources, the README and startup scripts).
Per spec section 3 and 4.3, the endpoint's output is a `FlashcardSet` whose
`flashcards` field is the list of generated question/answer pairs and whose
`total_count` "must equal the length of the list". -/
def flashcardsEndpoint (cards : List Flashcard) : FlashcardSet :=
  { flashcards := cards, total_count := cards.length }

/-- Claim C1: a successful /upload sets `extractedText` to the returned text
and resets `summary` and `flashcards` to null (and clears the error),
dispatching nothing; in particular in the scenario upload A → summarize →
upload B the summary field ends up null. -/
theorem upload_success_clears_results :
    (∀ (data : UploadResponse) (s : AppState),
      uploadOnSuccess data s =
        ({ extractedText := data.text, summary := none, flashcards := none,
           error := none }, [])) ∧
    (∀ (a b : UploadResponse) (sum : Summary),
      ((uploadOnSuccess b
          ((summaryOnSuccess sum
              ((uploadOnSuccess a initialState).1)).1)).1).summary = none) := by
  refine ⟨fun data s => rfl, fun a b sum => rfl⟩

/-- Claim C2: for every /flashcards response (backend handler modelled from the
spec), `total_count` equals the length of the `flashcards` list. -/
theorem flashcards_total_count_eq_length (cards : List Flashcard) :
    (flashcardsEndpoint cards).total_count =
      (flashcardsEndpoint cards).flashcards.length := rfl

/-- Claim C3: every failed request (upload, summarize or flashcards) only sets
the error banner message — `extractedText`, `summary` and `flashcards` are
unchanged — and dispatches no request (no retry, no rollback). -/
theorem request_failure_frame (detail : Option String) (s : AppState) :
    (∃ m, uploadOnError detail s = ({ s with error := some m }, [])) ∧
    (∃ m, summaryOnError detail s = ({ s with error := some m }, [])) ∧
    (∃ m, flashcardsOnError detail s = ({ s with error := some m }, [])) :=
  ⟨⟨_, rfl⟩, ⟨_, rfl⟩, ⟨_, rfl⟩⟩

/-- Witness for C3 at a concrete error and state. -/
theorem request_failure_frame_witness :
    (∃ m, uploadOnError (some "boom") initialState =
        ({ initialState with error := some m }, [])) ∧
    (∃ m, summaryOnError (some "boom") initialState =
        ({ initialState with error := some m }, [])) ∧
    (∃ m, flashcardsOnError (some "boom") initialState =
        ({ initialState with error := some m }, [])) :=
  request_failure_frame (some "boom") initialState

/-- Counterexample to claim C4 as stated: with the upload request outstanding
(`isLoading = true`) the drop target is not disabled, and dropping a PDF still
dispatches an upload request — a duplicate submission of the upload action. -/
theorem drop_during_upload_counterexample :
    dropZoneDisabled true = false ∧
    (handleDrop none (some { name := "doc.pdf", type := "application/pdf"
      })).dispatched =
      [Request.upload (some { name := "doc.pdf", type := "application/pdf" })
        none] :=
  ⟨rfl, rfl⟩

/-- Claim C4 (amended): the file input, the textarea, the Submit Text button,
the Generate Summary button, the card-count select and the Generate Flashcards
button are all disabled while their request is outstanding; the drag-and-drop
target, however, is not guarded, so a PDF dropped during an outstanding upload
dispatches a duplicate upload request. -/
theorem controls_disabled_while_loading (t : String) :
    fileInputDisabled true = true ∧
    textAreaDisabled true = true ∧
    textSubmitDisabled t true = true ∧
    summaryButtonDisabled true = true ∧
    numCardsSelectDisabled true = true ∧
    flashcardsButtonDisabled true = true := by
  refine ⟨rfl, rfl, ?_, rfl, rfl, rfl⟩
  simp [textSubmitDisabled]

/-- Counterexample to claim C5 as stated: a present but empty `detail` string
is not displayed verbatim — the JavaScript `||` treats `''` as falsy and the
generic fallback is shown instead. -/
theorem empty_detail_counterexample :
    ((uploadOnError (some "") initialState).1).error ≠ some "" ∧
    ((uploadOnError (some "") initialState).1).error =
      some "Failed to process content" :=
  ⟨by decide, rfl⟩

/-- Claim C5 (amended): a non-2xx response's `detail` string is displayed
verbatim when present and non-empty; when `detail` is absent or the empty
string, each mutation's generic fallback message is displayed. -/
theorem error_banner_detail (d : String) (hd : d ≠ "") (s : AppState) :
    (uploadOnError (some d) s).1.error = some d ∧
    (summaryOnError (some d) s).1.error = some d ∧
    (flashcardsOnError (some d) s).1.error = some d ∧
    (uploadOnError none s).1.error = some "Failed to process content" ∧
    (summaryOnError none s).1.error = some "Failed to generate summary" ∧
    (flashcardsOnError none s).1.error =
      some "Failed to generate flashcards" ∧
    (uploadOnError (some "") s).1.error = some "Failed to process content" ∧
    (summaryOnError (some "") s).1.error =
      some "Failed to generate summary" ∧
    (flashcardsOnError (some "") s).1.error =
      some "Failed to generate flashcards" := by
  simp [uploadOnError, summaryOnError, flashcardsOnError, jsOrString, hd]

/-- Witness for C5 (amended) at `detail = "no file provided"`. -/
theorem error_banner_detail_witness :
    "no file provided" ≠ "" ∧
    ((uploadOnError (some "no file provided") initialState).1.error =
        some "no file provided" ∧
      (summaryOnError (some "no file provided") initialState).1.error =
        some "no file provided" ∧
      (flashcardsOnError (some "no file provided") initialState).1.error =
        some "no file provided" ∧
      (uploadOnError none initialState).1.error =
        some "Failed to process content" ∧
      (summaryOnError none initialState).1.error =
        some "Failed to generate summary" ∧
      (flashcardsOnError none initialState).1.error =
        some "Failed to generate flashcards" ∧
      (uploadOnError (some "") initialState).1.error =
        some "Failed to process content" ∧
      (summaryOnError (some "") initialState).1.error =
        some "Failed to generate summary" ∧
      (flashcardsOnError (some "") initialState).1.error =
        some "Failed to generate flashcards") :=
  ⟨by decide, error_banner_detail "no file provided" (by decide) initialState⟩

/-- Claim C6: a successful summarize populates only the summary branch and a
successful flashcards call populates only the flashcards branch — each leaves
the other branch and `extractedText` unchanged (both also clear the error
banner and dispatch nothing). -/
theorem success_populates_own_branch (d : Summary) (f : FlashcardSet)
    (s : AppState) :
    summaryOnSuccess d s = ({ s with summary := some d, error := none }, []) ∧
    (summaryOnSuccess d s).1.flashcards = s.flashcards ∧
    (summaryOnSuccess d s).1.extractedText = s.extractedText ∧
    flashcardsOnSuccess f s =
      ({ s with flashcards := some f, error := none }, []) ∧
    (flashcardsOnSuccess f s).1.summary = s.summary ∧
    (flashcardsOnSuccess f s).1.extractedText = s.extractedText :=
  ⟨rfl, rfl, rfl, rfl, rfl, rfl⟩

/-- Claim C7: every /flashcards request the UI issues carries the current
`numCards`, which is always between 3 and 10: the select offers exactly the
values 3 through 10 and the state starts at 5. -/
theorem flashcards_num_cards_bounded (n : Nat) (h : NumCardsReachable n)
    (s : AppState) (r : Request) (hr : r ∈ handleGenerateFlashcards s n) :
    r = Request.flashcards s.extractedText n ∧ 3 ≤ n ∧ n ≤ 10 ∧
    initialNumCards = 5 ∧ cardOptions = [3, 4, 5, 6, 7, 8, 9, 10] := by
  have hb : 3 ≤ n ∧ n ≤ 10 := by
    cases h with
    | init => exact ⟨by decide, by decide⟩
    | select n hmem =>
      have hall : ∀ m ∈ cardOptions, 3 ≤ m ∧ m ≤ 10 := by decide
      exact hall n hmem
  have hreq : r = Request.flashcards s.extractedText n := by
    unfold handleGenerateFlashcards at hr
    split at hr
    · cases hr
    · simpa using hr
  exact ⟨hreq, hb.1, hb.2, rfl, rfl⟩

/-- Witness for C7: the initial card count 5 with loaded content "abc". -/
theorem flashcards_num_cards_bounded_witness :
    NumCardsReachable 5 ∧
    Request.flashcards "abc" 5 ∈
      handleGenerateFlashcards
        { extractedText := "abc", summary := none, flashcards := none,
          error := none } 5 ∧
    (Request.flashcards "abc" 5 =
        Request.flashcards
          ({ extractedText := "abc", summary := none, flashcards := none,
             error := none } : AppState).extractedText 5 ∧
      3 ≤ 5 ∧ 5 ≤ 10 ∧ initialNumCards = 5 ∧
      cardOptions = [3, 4, 5, 6, 7, 8, 9, 10]) :=
  ⟨NumCardsReachable.init, by decide,
    flashcards_num_cards_bounded 5 NumCardsReachable.init
      { extractedText := "abc", summary := none, flashcards := none,
        error := none }
      (Request.flashcards "abc" 5) (by decide)⟩

/-- Claim C8: for a text input that is empty or all whitespace, submitting
sends no /upload request and the Submit Text button is disabled (whatever the
loading flag). -/
theorem empty_text_not_submitted (t : String)
    (h : ∀ c ∈ t.data, c.isWhitespace) (b : Bool) :
    handleTextSubmit t = [] ∧ textSubmitDisabled t b = true := by
  have h1 : t.data.dropWhile Char.isWhitespace = [] :=
    List.dropWhile_eq_nil_iff.mpr h
  have ht : jsTrim t = "" := by
    unfold jsTrim trimChars
    rw [h1]
    rfl
  constructor
  · unfold handleTextSubmit
    rw [ht]
    rfl
  · unfold textSubmitDisabled
    rw [ht]
    simp

/-- Witness for C8 at the two-space input. -/
theorem empty_text_not_submitted_witness :
    (∀ c ∈ ("  " : String).data, c.isWhitespace) ∧
    (handleTextSubmit "  " = [] ∧ textSubmitDisabled "  " false = true) :=
  ⟨by decide, empty_text_not_submitted "  " (by decide) false⟩

/-- Claim C9: with no content loaded (`extractedText` empty) the generate
handlers dispatch no summarize or flashcards request and the summary and
flashcards sections render nothing. -/
theorem no_generation_without_content (s : AppState)
    (h : s.extractedText = "") (n : Nat) :
    handleGenerateSummary s = [] ∧
    handleGenerateFlashcards s n = [] ∧
    summarySectionRenders s.extractedText = false ∧
    flashcardsSectionRenders s.extractedText = false := by
  simp [handleGenerateSummary, handleGenerateFlashcards, summarySectionRenders,
    flashcardsSectionRenders, h]

/-- Witness for C9 at the initial state. -/
theorem no_generation_without_content_witness :
    initialState.extractedText = "" ∧
    (handleGenerateSummary initialState = [] ∧
      handleGenerateFlashcards initialState 5 = [] ∧
      summarySectionRenders initialState.extractedText = false ∧
      flashcardsSectionRenders initialState.extractedText = false) :=
  ⟨rfl, no_generation_without_content initialState rfl 5⟩

/-- Claim C10: a selected or dropped file whose MIME type is not
application/pdf is never forwarded to `onFileSelect`: both handlers dispatch
nothing, leave the selected file unchanged, and alert the user. -/
theorem non_pdf_never_forwarded (f : File)
    (h : f.type ≠ "application/pdf") (prev : Option File) :
    handleFileChange prev (some f) =
      { selectedFile := prev, dispatched := [],
        alerted := some "Please select a PDF file" } ∧
    handleDrop prev (some f) =
      { selectedFile := prev, dispatched := [],
        alerted := some "Please drop a PDF file" } := by
  constructor
  · unfold handleFileChange
    simp [h]
  · unfold handleDrop
    simp [h]

/-- Witness for C10 at a plain-text file. -/
theorem non_pdf_never_forwarded_witness :
    ({ name := "notes.txt", type := "text/plain" } : File).type ≠
      "application/pdf" ∧
    (handleFileChange none (some { name := "notes.txt", type := "text/plain" })
        = { selectedFile := none, dispatched := [],
            alerted := some "Please select a PDF file" } ∧
      handleDrop none (some { name := "notes.txt", type := "text/plain" })
        = { selectedFile := none, dispatched := [],
            alerted := some "Please drop a PDF file" }) :=
  ⟨by decide,
    non_pdf_never_forwarded { name := "notes.txt", type := "text/plain" }
      (by decide) none⟩

end QuizCards
